import Mathlib

/-!
# Verification of the RAG Embedding Service (`app/main.py`)

Shallow embedding of the FastAPI embedding service in
`src/python-services/embedding-service/app/main.py`.

The service holds one process-wide global `model : SentenceTransformer | None`,
loads it in a startup event, and serves two endpoints:

* `POST /embed` (`embed_texts`): check model readiness (Python truthiness of
  the global `model`), check `request.texts` non-empty, call
  `model.encode(request.texts).tolist()`, wrap failures of the inference call
  as HTTP 500 with the exception's string message.
* `GET /health` (`health_check`): 200 `{"status":"healthy"}` when the model is
  truthy, else HTTP 503 `{"detail":"Model not loaded"}`.

Modelling decisions:

* Embedding values are `Int` rather than IEEE floats: no claim depends on
  floating-point arithmetic, only on the shape and identity of the returned
  matrix, which the handler passes through unchanged.
* The external `SentenceTransformer` model is opaque: a record carrying its
  identifier, its Python length (`SentenceTransformer` subclasses
  `torch.nn.Sequential`, whose `__len__` returns the number of modules, so
  `bool(model)` is `len(model) != 0`; `bool(None)` is `False`), a fixed
  output dimensionality, and an `encode` function returning either the
  embedding matrix (already in `.tolist()` shape) or the string message of a
  raised exception.
* Python exceptions raised by handlers are the `Except` error channel;
  FastAPI's `HTTPException(status_code, detail)` is a two-field record.
* Mutable process-wide state (the global `model` and the logger output) is
  threaded explicitly: each handler maps a pre-state to a result, a
  post-state, and — for `embed_texts` — the trace of inputs passed to
  `model.encode`, which lets us state that inference is attempted at most
  once (no internal retry).
-/

/-- Values of the embedding vectors (`float` in the source).  Modelled as
integers: no claim concerns floating-point arithmetic, only response shape
and pass-through identity. -/
abbrev PyFloat := Int

/-- Opaque handle for the external pretrained model
(`sentence_transformers.SentenceTransformer`).  `pyLen` is Python's
`len(model)` (inherited from `torch.nn.Sequential`: the number of modules);
`dim` is the model's fixed output dimensionality; `encode` returns the
embedding matrix in `.tolist()` shape, or the string message of the
exception it raised. -/
structure SentenceTransformer where
  modelName : String
  pyLen : Nat
  dim : Nat
  encode : List String → Except String (List (List PyFloat))

/-- Python truthiness of the global `model : SentenceTransformer | None`:
`bool(None)` is `False`; `bool(m)` for a `SentenceTransformer` is
`len(m) != 0` via `nn.Sequential.__len__`. -/
def pyTruthy : Option SentenceTransformer → Bool
  | none => false
  | some m => m.pyLen != 0

/-- FastAPI's `HTTPException(status_code=..., detail=...)`. -/
structure HTTPException where
  status_code : Nat
  detail : String
deriving DecidableEq, Repr

/-- Response model `EmbedResponse(embeddings=...)`. -/
structure EmbedResponse where
  embeddings : List (List PyFloat)
deriving DecidableEq, Repr

/-- Response model `HealthResponse(status=...)`. -/
structure HealthResponse where
  status : String
deriving DecidableEq, Repr

/-- Process-wide mutable state: the module-level global `model` and the
logger's output stream. -/
structure AppState where
  model : Option SentenceTransformer
  logs : List String

/-- Outcome of one call to the `/embed` handler: the HTTP-level result, the
post-state of the process globals, and the trace of argument lists passed to
`model.encode` during the call (in order). -/
structure EmbedOutcome where
  result : Except HTTPException EmbedResponse
  state : AppState
  encodeCalls : List (List String)

/-- The `/embed` handler `embed_texts` from `app/main.py`:

```python
if not model:
    raise HTTPException(status_code=503, detail="Model not loaded")
if not request.texts:
    raise HTTPException(status_code=400, detail="No texts provided")
try:
    embeddings = model.encode(request.texts).tolist()
    return EmbedResponse(embeddings=embeddings)
except Exception as e:
    logger.error(f"Embedding error: \x7bstr(e)\x7d")
    raise HTTPException(status_code=500, detail=str(e))
```

`not request.texts` is Python truthiness of a list: true exactly when the
list is empty. -/
def embed_texts (st : AppState) (texts : List String) : EmbedOutcome :=
  if !pyTruthy st.model then
    { result := .error ⟨503, "Model not loaded"⟩, state := st, encodeCalls := [] }
  else if texts.isEmpty then
    { result := .error ⟨400, "No texts provided"⟩, state := st, encodeCalls := [] }
  else
    match st.model with
    | some m =>
        match m.encode texts with
        | .ok embeddings =>
            { result := .ok ⟨embeddings⟩, state := st, encodeCalls := [texts] }
        | .error e =>
            { result := .error ⟨500, e⟩,
              state := { st with logs := st.logs ++ ["Embedding error: " ++ e] },
              encodeCalls := [texts] }
    | none =>
        -- unreachable: `pyTruthy none = false`, so the first branch fired
        { result := .error ⟨503, "Model not loaded"⟩, state := st, encodeCalls := [] }

/-- Outcome of one call to the `/health` handler: result and post-state. -/
structure HealthOutcome where
  result : Except HTTPException HealthResponse
  state : AppState

/-- The `/health` handler `health_check` from `app/main.py`:

```python
if model:
    return HealthResponse(status="healthy")
else:
    raise HTTPException(status_code=503, detail="Model not loaded")
```
-/
def health_check (st : AppState) : HealthOutcome :=
  if pyTruthy st.model then
    { result := .ok ⟨"healthy"⟩, state := st }
  else
    { result := .error ⟨503, "Model not loaded"⟩, state := st }

/-- The default model identifier in `os.getenv("MODEL_NAME", ...)`. -/
def defaultModelName : String := "sentence-transformers/all-MiniLM-L6-v2"

/-- `model_name = os.getenv("MODEL_NAME", "sentence-transformers/all-MiniLM-L6-v2")`:
read the environment, fall back to the default when the variable is absent. -/
def resolve_model_name (getenv : String → Option String) : String :=
  (getenv "MODEL_NAME").getD defaultModelName

/-- The startup event `startup_event` from `app/main.py`, with the
environment (`os.getenv`) and the model constructor
(`SentenceTransformer(model_name)`, which either yields a model or raises
with a string message) passed in as parameters:

```python
global model
model_name = os.getenv("MODEL_NAME", "sentence-transformers/all-MiniLM-L6-v2")
logger.info(f"Loading model: \x7bmodel_name\x7d")
try:
    model = SentenceTransformer(model_name)
    logger.info("Model loaded successfully")
except Exception as e:
    logger.error(f"Failed to load model: \x7bstr(e)\x7d")
    raise
```

Returns the post-state and, when the load raised, the re-raised exception
message (`some e`); on the failure path the assignment to the global `model`
never executed, so the pre-state's `model` is kept. -/
def startup_event (getenv : String → Option String)
    (load : String → Except String SentenceTransformer)
    (st : AppState) : AppState × Option String :=
  let model_name := resolve_model_name getenv
  let st₁ : AppState := { st with logs := st.logs ++ ["Loading model: " ++ model_name] }
  match load model_name with
  | .ok m =>
      ({ st₁ with model := some m, logs := st₁.logs ++ ["Model loaded successfully"] },
       none)
  | .error e =>
      ({ st₁ with logs := st₁.logs ++ ["Failed to load model: " ++ e] },
       some e)

/-! ## Concrete model instances used by the witnesses -/

/-- A stub inference function that always succeeds with one 3-vector per
input text. -/
def encodeStub : List String → Except String (List (List PyFloat)) :=
  fun ts => .ok (ts.map (fun _ => [0, 1, 2]))

/-- A ready (truthy) model: one module, dimensionality 3. -/
def modelStub : SentenceTransformer :=
  { modelName := defaultModelName, pyLen := 1, dim := 3, encode := encodeStub }

/-- A stub inference function that always raises. -/
def encodeFailStub : List String → Except String (List (List PyFloat)) :=
  fun _ => .error "boom"

/-- A ready (truthy) model whose inference always raises. -/
def modelFailStub : SentenceTransformer :=
  { modelName := defaultModelName, pyLen := 1, dim := 3, encode := encodeFailStub }

/-- A loaded-but-falsy model: zero modules, so Python truthiness is false. -/
def modelEmptyStub : SentenceTransformer :=
  { modelName := defaultModelName, pyLen := 0, dim := 3, encode := encodeStub }

/-! ## Helper lemmas -/

/-- The embed handler never touches the global model and only ever appends
to the log stream. -/
theorem embed_texts_state_spec (st : AppState) (texts : List String) :
    (embed_texts st texts).state.model = st.model ∧
    ∃ l, (embed_texts st texts).state.logs = st.logs ++ l := by
  unfold embed_texts
  split
  · exact ⟨rfl, [], by simp⟩
  · split
    · exact ⟨rfl, [], by simp⟩
    · split
      · split
        · exact ⟨rfl, [], by simp⟩
        · exact ⟨rfl, _, rfl⟩
      · exact ⟨rfl, [], by simp⟩

/-- The embed result depends only on the global model and the request
texts, not on the log stream. -/
theorem embed_texts_result_congr (st₁ st₂ : AppState) (texts : List String)
    (h : st₁.model = st₂.model) :
    (embed_texts st₁ texts).result = (embed_texts st₂ texts).result := by
  unfold embed_texts
  rw [h]
  split
  · rfl
  · split
    · rfl
    · split
      · split <;> rfl
      · rfl

/-! ## Claim theorems -/

/-- Claim C1: for every non-empty `texts` of length `n`, when the model is
ready and its `encode` call succeeds (producing, per the model contract,
one vector of the model's fixed dimensionality per text), `embed_texts`
succeeds and returns exactly the matrix `encode` produced — hence `n`
vectors, one per input text, in input order, all of the model's fixed
dimensionality. -/
theorem embed_texts_success_shape (st : AppState) (texts : List String)
    (m : SentenceTransformer) (embs : List (List PyFloat))
    (hm : st.model = some m) (hready : pyTruthy st.model = true)
    (hne : texts ≠ [])
    (henc : m.encode texts = .ok embs)
    (hlen : embs.length = texts.length)
    (hdim : ∀ v ∈ embs, v.length = m.dim) :
    (embed_texts st texts).result = .ok ⟨embs⟩ ∧
    embs.length = texts.length ∧
    ∀ v ∈ embs, v.length = m.dim := by
  refine ⟨?_, hlen, hdim⟩
  unfold embed_texts
  rw [hready, hm]
  simp [henc, List.isEmpty_eq_true, hne]

/-- Witness for C1 at a concrete ready model and a two-text batch. -/
theorem embed_texts_success_shape_witness :
    (embed_texts ⟨some modelStub, []⟩ ["hello", "world"]).result =
      .ok ⟨[[0, 1, 2], [0, 1, 2]]⟩ ∧
    ([[0, 1, 2], [0, 1, 2]] : List (List PyFloat)).length =
      (["hello", "world"] : List String).length ∧
    ∀ v ∈ ([[0, 1, 2], [0, 1, 2]] : List (List PyFloat)), v.length = modelStub.dim :=
  embed_texts_success_shape ⟨some modelStub, []⟩ ["hello", "world"] modelStub
    [[0, 1, 2], [0, 1, 2]] rfl rfl (by decide) rfl rfl (by decide)

/-- Claim C2: validation order.  The readiness check comes first: whenever
the global model is not truthy, `embed_texts` fails with 503
"Model not loaded" for every `texts`, the empty list included; only when
the model is ready does the emptiness check run, failing with 400
"No texts provided" on an empty batch. -/
theorem embed_texts_validation_order (st : AppState) (texts : List String) :
    (pyTruthy st.model = false →
      (embed_texts st texts).result = .error ⟨503, "Model not loaded"⟩) ∧
    (pyTruthy st.model = true → texts = [] →
      (embed_texts st texts).result = .error ⟨400, "No texts provided"⟩) := by
  constructor
  · intro h
    unfold embed_texts
    rw [h]
    rfl
  · intro h he
    unfold embed_texts
    rw [h, he]
    rfl

/-- Witness for C2: with no model loaded, `embed([])` and `embed(["a"])`
both give 503; with a ready model, `embed([])` gives 400. -/
theorem embed_texts_validation_order_witness :
    (embed_texts ⟨none, []⟩ []).result = .error ⟨503, "Model not loaded"⟩ ∧
    (embed_texts ⟨none, []⟩ ["a"]).result = .error ⟨503, "Model not loaded"⟩ ∧
    (embed_texts ⟨some modelStub, []⟩ []).result = .error ⟨400, "No texts provided"⟩ :=
  ⟨(embed_texts_validation_order ⟨none, []⟩ []).1 rfl,
   (embed_texts_validation_order ⟨none, []⟩ ["a"]).1 rfl,
   (embed_texts_validation_order ⟨some modelStub, []⟩ []).2 rfl rfl⟩

/-- Counterexample to claim C3 as stated: in the not-loaded state,
`embed([])` fails with 503 "Model not loaded" (the readiness check wins),
not with 400 "No texts provided" — so the failure is not InvalidArgument
"regardless of model readiness". -/
theorem embed_empty_unready_counterexample :
    (embed_texts ⟨none, []⟩ []).result = .error ⟨503, "Model not loaded"⟩ ∧
    (embed_texts ⟨none, []⟩ []).result ≠ .error ⟨400, "No texts provided"⟩ :=
  ⟨rfl, by simp [embed_texts, pyTruthy]⟩

/-- Claim C3 (amended): whenever the model is ready, `embed([])` fails with
InvalidArgument (400, "No texts provided"); in the not-loaded state the
readiness check fires first and `embed([])` fails with 503 instead. -/
theorem embed_empty_invalid_argument (st : AppState)
    (hready : pyTruthy st.model = true) :
    (embed_texts st []).result = .error ⟨400, "No texts provided"⟩ := by
  unfold embed_texts
  rw [hready]
  rfl

/-- Witness for the amended C3 at a concrete ready model. -/
theorem embed_empty_invalid_argument_witness :
    (embed_texts ⟨some modelStub, []⟩ []).result = .error ⟨400, "No texts provided"⟩ :=
  embed_empty_invalid_argument ⟨some modelStub, []⟩ rfl

/-- Claim C4: when the inference call raises with message `e`, `embed_texts`
fails with 500 whose detail is exactly `e` (no redaction), and the encode
trace is exactly one call on the request's texts (no internal retry). -/
theorem embed_texts_inference_error (st : AppState) (texts : List String)
    (m : SentenceTransformer) (e : String)
    (hm : st.model = some m) (hready : pyTruthy st.model = true)
    (hne : texts ≠ [])
    (henc : m.encode texts = .error e) :
    (embed_texts st texts).result = .error ⟨500, e⟩ ∧
    (embed_texts st texts).encodeCalls = [texts] := by
  unfold embed_texts
  rw [hready, hm]
  simp [henc, List.isEmpty_eq_true, hne]

/-- Witness for C4 at a model whose inference always raises "boom". -/
theorem embed_texts_inference_error_witness :
    (embed_texts ⟨some modelFailStub, []⟩ ["a"]).result = .error ⟨500, "boom"⟩ ∧
    (embed_texts ⟨some modelFailStub, []⟩ ["a"]).encodeCalls = [["a"]] :=
  embed_texts_inference_error ⟨some modelFailStub, []⟩ ["a"] modelFailStub "boom"
    rfl rfl (by decide) rfl

/-- Claim C5: `health_check` returns `HealthResponse "healthy"` if and only
if the global model is truthy; when it is not, the result is exactly 503
"Model not loaded".  The two parts cover every state, so the result depends
on nothing but the readiness of the model handle. -/
theorem health_check_healthy_iff (st : AppState) :
    ((health_check st).result = .ok ⟨"healthy"⟩ ↔ pyTruthy st.model = true) ∧
    (pyTruthy st.model = false →
      (health_check st).result = .error ⟨503, "Model not loaded"⟩) := by
  constructor
  · constructor
    · intro h
      by_contra hc
      rw [Bool.not_eq_true] at hc
      unfold health_check at h
      rw [hc] at h
      simp at h
    · intro h
      unfold health_check
      rw [h]
      rfl
  · intro h
    unfold health_check
    rw [h]
    rfl

/-- Witness for C5: healthy on a ready model, 503 on the empty handle. -/
theorem health_check_healthy_iff_witness :
    (health_check ⟨some modelStub, []⟩).result = .ok ⟨"healthy"⟩ ∧
    (health_check ⟨none, []⟩).result = .error ⟨503, "Model not loaded"⟩ :=
  ⟨(health_check_healthy_iff ⟨some modelStub, []⟩).1.mpr rfl,
   (health_check_healthy_iff ⟨none, []⟩).2 rfl⟩

/-- Claim C6: when the model constructor raises during startup,
`startup_event` logs the cause ("Failed to load model: ..."), re-raises the
failure (the returned exception slot is `some e`, so the framework aborts
process startup), and stores no partial handle: the global model is exactly
what it was before, in particular still `none` at first startup. -/
theorem startup_event_load_failure (getenv : String → Option String)
    (load : String → Except String SentenceTransformer) (st : AppState) (e : String)
    (hfail : load (resolve_model_name getenv) = .error e) :
    (startup_event getenv load st).2 = some e ∧
    (startup_event getenv load st).1.model = st.model ∧
    "Failed to load model: " ++ e ∈ (startup_event getenv load st).1.logs := by
  simp [startup_event, hfail]

/-- Witness for C6 with a constructor that raises "no such model". -/
theorem startup_event_load_failure_witness :
    (startup_event (fun _ => none) (fun _ => .error "no such model") ⟨none, []⟩).2 =
      some "no such model" ∧
    (startup_event (fun _ => none) (fun _ => .error "no such model") ⟨none, []⟩).1.model =
      (⟨none, []⟩ : AppState).model ∧
    "Failed to load model: " ++ "no such model" ∈
      (startup_event (fun _ => none) (fun _ => .error "no such model") ⟨none, []⟩).1.logs :=
  startup_event_load_failure (fun _ => none) (fun _ => .error "no such model")
    ⟨none, []⟩ "no such model" rfl

/-- Claim C7: the model identifier comes from the single environment
variable "MODEL_NAME"; when it is absent the resolved identifier is the
documented default "sentence-transformers/all-MiniLM-L6-v2", and startup
proceeds with that default rather than erroring: if loading the default
succeeds, `startup_event` raises nothing and stores the loaded model. -/
theorem startup_event_default_model (getenv : String → Option String)
    (load : String → Except String SentenceTransformer)
    (st : AppState) (m : SentenceTransformer)
    (habsent : getenv "MODEL_NAME" = none)
    (hload : load defaultModelName = .ok m) :
    resolve_model_name getenv = defaultModelName ∧
    (startup_event getenv load st).2 = none ∧
    (startup_event getenv load st).1.model = some m := by
  have hres : resolve_model_name getenv = defaultModelName := by
    unfold resolve_model_name
    rw [habsent]
    rfl
  refine ⟨hres, ?_, ?_⟩ <;>
    simp only [startup_event, hres, hload]

/-- Witness for C7: empty environment, a loader that succeeds only on the
default identifier. -/
theorem startup_event_default_model_witness :
    resolve_model_name (fun _ => none) = defaultModelName ∧
    (startup_event (fun _ => none)
      (fun n => if n = defaultModelName then .ok modelStub else .error "no such model")
      ⟨none, []⟩).2 = none ∧
    (startup_event (fun _ => none)
      (fun n => if n = defaultModelName then .ok modelStub else .error "no such model")
      ⟨none, []⟩).1.model = some modelStub :=
  startup_event_default_model (fun _ => none)
    (fun n => if n = defaultModelName then .ok modelStub else .error "no such model")
    ⟨none, []⟩ modelStub rfl (by simp)

/-- Claim C8: two-run determinism.  A second `/embed` call with the same
texts, run from the state the first call left behind, produces the same
result as the first call.  (The underlying encode function is a pure
function here, the shallow image of the deterministic-model assumption.) -/
theorem embed_texts_two_run_deterministic (st : AppState) (texts : List String) :
    (embed_texts (embed_texts st texts).state texts).result =
      (embed_texts st texts).result :=
  embed_texts_result_congr (embed_texts st texts).state st texts
    (embed_texts_state_spec st texts).1

/-- Claim C9: neither handler mutates or replaces the model handle, and the
only state either handler touches is the log stream: `embed_texts` keeps
the model and at most appends to the logs, on success and on every error
path, and `health_check` returns the state fully unchanged. -/
theorem handlers_leave_model_unchanged (st : AppState) (texts : List String) :
    (embed_texts st texts).state.model = st.model ∧
    (∃ l, (embed_texts st texts).state.logs = st.logs ++ l) ∧
    (health_check st).state = st := by
  refine ⟨(embed_texts_state_spec st texts).1, (embed_texts_state_spec st texts).2, ?_⟩
  unfold health_check
  split <;> rfl

/-- Claim C10: readiness is Python truthiness of the global model, not a
None check: a loaded model handle whose Python length is zero (falsy
without being None) makes both `embed_texts` and `health_check` fail with
503 "Model not loaded". -/
theorem falsy_model_treated_as_not_ready (st : AppState) (m : SentenceTransformer)
    (texts : List String) (hm : st.model = some m) (hlen : m.pyLen = 0) :
    (embed_texts st texts).result = .error ⟨503, "Model not loaded"⟩ ∧
    (health_check st).result = .error ⟨503, "Model not loaded"⟩ := by
  have h : pyTruthy st.model = false := by
    rw [hm]
    simp [pyTruthy, hlen]
  constructor
  · unfold embed_texts
    rw [h]
    rfl
  · unfold health_check
    rw [h]
    rfl

/-- Witness for C10: a model with zero modules is present yet not ready. -/
theorem falsy_model_treated_as_not_ready_witness :
    (embed_texts ⟨some modelEmptyStub, []⟩ ["a"]).result =
      .error ⟨503, "Model not loaded"⟩ ∧
    (health_check ⟨some modelEmptyStub, []⟩).result =
      .error ⟨503, "Model not loaded"⟩ :=
  falsy_model_treated_as_not_ready ⟨some modelEmptyStub, []⟩ modelEmptyStub ["a"]
    rfl rfl
